import Mathlib

/-!
Verification of the BLE advertising / HCI bring-up core of
`esp32/network_bluetooth.c` (MicroPython ESP32 port).

The C source is embedded shallowly: pure computations become Lean
functions, the in-place mutations of the process-wide singleton become
explicit state passing on a record type, machine integers become `Nat`
with explicit masking where it matters, and calls that raise become an
`Option String` error component carried next to the (possibly already
mutated) state, matching the C behaviour where `mp_raise_*` unwinds but
leaves every mutation made so far in place.

External MicroPython / ESP-IDF collaborators (object type tests, buffer
extraction, the FreeRTOS tick constant) are not part of the source file;
where a definition stands in for one of them its doc comment says so and
follows the specification's description of that collaborator.
-/

/-! Section: HCI command catalog and frame builder -/

def HCI_GRP_HOST_CONT_BASEBAND_CMDS : Nat := 0x03

def HCI_GRP_BLE_CMDS : Nat := 0x08

def H4_TYPE_COMMAND : Nat := 0x01

/-- The macro `MAKE_OPCODE(OGF, OCF)` = `((OGF) << 10) | (OCF)`. -/
def MAKE_OPCODE (ogf ocf : Nat) : Nat := (ogf <<< 10) ||| ocf

/-- The macro `MAKE_OPCODE_BYTES(OGF, OCF)`, giving
the two opcode bytes `opcode & 0xff` then `opcode >> 8` as they sit in
the static table (little-endian). -/
def MAKE_OPCODE_BYTES (ogf ocf : Nat) : List Nat :=
  [MAKE_OPCODE ogf ocf &&& 0xff, MAKE_OPCODE ogf ocf >>> 8]

/-- Layout of `hci_cmd_def_t`: the three preamble bytes, as the two opcode
bytes plus the parameter size, exactly the memory layout the C `memcpy`
copies into the frame. -/
structure hci_cmd_def_t where
  opcode : List Nat
  param_size : Nat
deriving DecidableEq

def HCI_CMD_RESET : Nat := 0
def HCI_CMD_BLE_WRITE_ADV_ENABLE : Nat := 1
def HCI_CMD_BLE_WRITE_ADV_PARAMS : Nat := 2
def HCI_CMD_BLE_WRITE_ADV_DATA : Nat := 3

/-- The static table `hci_commands[4]`. Indices past 3 never occur
(the command identifiers are the closed enumeration above). -/
def hci_commands : Nat → hci_cmd_def_t
  | 0 => ⟨MAKE_OPCODE_BYTES HCI_GRP_HOST_CONT_BASEBAND_CMDS 0x03, 0x00⟩
  | 1 => ⟨MAKE_OPCODE_BYTES HCI_GRP_BLE_CMDS 0x0A, 0x01⟩
  | 2 => ⟨MAKE_OPCODE_BYTES HCI_GRP_BLE_CMDS 0x06, 0x0f⟩
  | 3 => ⟨MAKE_OPCODE_BYTES HCI_GRP_BLE_CMDS 0x08, 0x1f⟩
  | _ => ⟨[0, 0], 0⟩

/-- The macro `CREATE_HCI_HOST_COMMAND(cmd)`: a zero-filled buffer of size
`1 + sizeof(hci_cmd_def_t) + param_size`, whose first byte is the H4
command type and whose next three bytes are the command's preamble;
the trailing `param_size` bytes stay zero. -/
def CREATE_HCI_HOST_COMMAND (cmd : Nat) : List Nat :=
  let c := hci_commands cmd
  H4_TYPE_COMMAND :: c.opcode ++ c.param_size :: List.replicate c.param_size 0

/-- Specification-side view of the catalog: the OGF of each command. -/
def hci_ogf : Nat → Nat
  | 0 => HCI_GRP_HOST_CONT_BASEBAND_CMDS
  | _ => HCI_GRP_BLE_CMDS

/-- Specification-side view of the catalog: the OCF of each command. -/
def hci_ocf : Nat → Nat
  | 0 => 0x03
  | 1 => 0x0A
  | 2 => 0x06
  | _ => 0x08

/-- Specification-side view of the catalog: the parameter length. -/
def hci_plen : Nat → Nat
  | 0 => 0
  | 1 => 1
  | 2 => 0x0f
  | _ => 0x1f

/-! Section: transport sender, from network_bluetooth_send_data -/

/-- C logical OR on integers: `a || b` yields `1` when either operand is
nonzero, else `0`. -/
def c_or (a b : Nat) : Nat := if a ≠ 0 ∨ b ≠ 0 then 1 else 0

/-- The retry loop
`while(((ready = esp_vhci_host_check_send_available()) == false) && tries--)`.
`avail i` is the result of the `i`-th readiness poll; the argument
`tries` is the current value of the C counter at loop entry.  Returns
(number of polls performed, number of sleeps performed).  When the
counter is `0` the predicate is still polled once more and then the
post-decrement evaluates to `0` (false) and the loop exits without
sleeping. -/
def pollLoop (avail : Nat → Bool) : Nat → Nat → Nat × Nat
  | 0, _ => (1, 0)
  | t + 1, idx =>
    if avail idx then (1, 0)
    else
      let r := pollLoop avail t (idx + 1)
      (r.1 + 1, r.2 + 1)

/-- Observable trace of one `network_bluetooth_send_data` call. -/
structure send_trace where
  polls : Nat
  sleep_ticks : List Nat
  packets : List (List Nat)
deriving DecidableEq

/-- Model of `network_bluetooth_send_data(buf, buf_size)`: poll readiness with
`int tries = 3`, sleeping `vTaskDelay((10 / portTICK_PERIOD_MS) || 1)`
between polls, then hand the buffer to `esp_vhci_host_send_packet`
unconditionally.  `port_tick_ms` is the FreeRTOS `portTICK_PERIOD_MS`
constant, `avail` the external readiness predicate. -/
def network_bluetooth_send_data (avail : Nat → Bool) (port_tick_ms : Nat)
    (buf : List Nat) : send_trace :=
  let r := pollLoop avail 3 0
  ⟨r.1, List.replicate r.2 (c_or (10 / port_tick_ms) 1), [buf]⟩

theorem pollLoop_fst_le (avail : Nat → Bool) :
    ∀ tries idx, (pollLoop avail tries idx).1 ≤ tries + 1 := by
  intro tries
  induction tries with
  | zero => intro idx; simp [pollLoop]
  | succ t ih =>
    intro idx
    by_cases h : avail idx
    · simp [pollLoop, h]
    · simp only [pollLoop, h, if_false, Bool.false_eq_true]
      exact Nat.succ_le_succ (ih (idx + 1))

theorem pollLoop_fst_pos (avail : Nat → Bool) :
    ∀ tries idx, 1 ≤ (pollLoop avail tries idx).1 := by
  intro tries
  induction tries with
  | zero => intro idx; simp [pollLoop]
  | succ t ih =>
    intro idx
    by_cases h : avail idx
    · simp [pollLoop, h]
    · simp only [pollLoop, h, if_false, Bool.false_eq_true]
      exact Nat.le_succ_of_le (ih (idx + 1))

theorem pollLoop_snd_eq (avail : Nat → Bool) :
    ∀ tries idx, (pollLoop avail tries idx).2 = (pollLoop avail tries idx).1 - 1 := by
  intro tries
  induction tries with
  | zero => intro idx; simp [pollLoop]
  | succ t ih =>
    intro idx
    by_cases h : avail idx
    · simp [pollLoop, h]
    · simp only [pollLoop, h, if_false, Bool.false_eq_true]
      rw [ih (idx + 1)]
      rw [Nat.sub_add_cancel (pollLoop_fst_pos avail t (idx + 1))]
      simp

/-! Section: millisecond to controller-unit conversion -/

/-- The integer significand of the IEEE-754 binary64 value of the C
literal `1.6`; the literal's value is `double_1_6_num / 2 ^ 52`
(slightly above 8/5). -/
def double_1_6_num : Nat := 7205759403792794

/-- Rounding quantum of the binary64 format at the magnitude of the
dyadic numerator `n` (over `2 ^ 52`): the spacing `2 ^ (bitlength n - 53)`
of representable significands, or 1 when `n` already fits 53 bits.  The
guards are the numerals `2 ^ 53 .. 2 ^ 69`; products from interval
inputs that fit the `uint16_t` destination stay below `2 ^ 69`. -/
def rounding_step (n : Nat) : Nat :=
  if n < 9007199254740992 then 1
  else if n < 18014398509481984 then 2
  else if n < 36028797018963968 then 4
  else if n < 72057594037927936 then 8
  else if n < 144115188075855872 then 16
  else if n < 288230376151711744 then 32
  else if n < 576460752303423488 then 64
  else if n < 1152921504606846976 then 128
  else if n < 2305843009213693952 then 256
  else if n < 4611686018427387904 then 512
  else if n < 9223372036854775808 then 1024
  else if n < 18446744073709551616 then 2048
  else if n < 36893488147419103232 then 4096
  else if n < 73786976294838206464 then 8192
  else if n < 147573952589676412928 then 16384
  else if n < 295147905179352825856 then 32768
  else if n < 590295810358705651712 then 65536
  else 131072

/-- Round `n / p` to the nearest integer, ties to even, for `p` the
rounding quantum: the IEEE-754 default rounding performed by the
hardware multiplication. -/
def rne (n p : Nat) : Nat :=
  if 2 * (n % p) < p then n / p
  else if p < 2 * (n % p) then n / p + 1
  else if n / p % 2 = 0 then n / p else n / p + 1

/-- The correctly rounded binary64 product `m * 1.6`, represented as a
dyadic numerator over `2 ^ 52` (the real product equals the returned
value divided by `2 ^ 52`). -/
def mul_double_1_6 (m : Nat) : Nat :=
  if rounding_step (m * double_1_6_num) = 1 then m * double_1_6_num
  else rne (m * double_1_6_num) (rounding_step (m * double_1_6_num)) *
    rounding_step (m * double_1_6_num)

/-- The source assignment `self->params.adv_int_min = u_int * 1.6`:
the integer argument is multiplied by the binary64 constant `1.6` and
the product is converted to `uint16_t`, which truncates toward zero;
the divisor is `2 ^ 52`.  (Well defined for `m ≤ 40959`, where the
product stays below 65536.) -/
def adv_int_store (m : Nat) : Nat := mul_double_1_6 m / 4503599627370496

/-- The specification's conversion: `round(ms * 1.6)` over the exact
rationals. -/
def spec_round_units (m : Nat) : ℤ := round ((m : ℚ) * 1.6)

/-- Balanced-recursion range check: true iff every `m` with
`lo ≤ m < lo + len` satisfies `adv_int_store m = 8 * m / 5`.  The fuel
bounds the recursion depth at `log2 len`. -/
def check_range (fuel : Nat) (lo len : Nat) : Bool :=
  match fuel with
  | 0 => decide (len = 0)
  | f + 1 =>
    if len = 0 then true
    else if len = 1 then adv_int_store lo == 8 * lo / 5
    else check_range f lo (len / 2) && check_range f (lo + len / 2) (len - len / 2)

theorem check_range_sound :
    ∀ (fuel lo len : Nat), check_range fuel lo len = true →
      ∀ i, i < len → adv_int_store (lo + i) = 8 * (lo + i) / 5 := by
  intro fuel
  induction fuel with
  | zero =>
    intro lo len h i hi
    simp only [check_range, decide_eq_true_eq] at h
    omega
  | succ f ih =>
    intro lo len h i hi
    simp only [check_range] at h
    split_ifs at h with h0 h1
    · omega
    · have hi0 : i = 0 := by omega
      subst hi0
      simp only [beq_iff_eq] at h
      simpa using h
    · rw [Bool.and_eq_true] at h
      by_cases hlt : i < len / 2
      · exact ih lo (len / 2) h.1 i hlt
      · have h2 := ih (lo + len / 2) (len - len / 2) h.2 (i - len / 2) (by omega)
        have heq : lo + len / 2 + (i - len / 2) = lo + i := by omega
        rwa [heq] at h2

/-! Section: the advertising configuration store -/

/-- The lifecycle enumeration of `network_bluetooth_obj_t`. -/
inductive bt_state where
  | DEINIT
  | INIT
deriving DecidableEq

/-- The record `esp_ble_adv_params_t`, restricted to the fields this source file
reads or writes. -/
structure esp_ble_adv_params_t where
  adv_int_min : Nat
  adv_int_max : Nat
  adv_type : Nat
  own_addr_type : Nat
  peer_addr : List Nat
  peer_addr_type : Nat
  channel_map : Nat
  adv_filter_policy : Nat
deriving DecidableEq

/-- The record `esp_ble_adv_data_t`, with the owned manufacturer buffer made
explicit: `p_manufacturer_data = none` is the null pointer, `some b`
an owned allocation holding the bytes `b`. -/
structure esp_ble_adv_data_t where
  set_scan_rsp : Bool
  include_name : Bool
  include_txpower : Bool
  min_interval : Nat
  max_interval : Nat
  appearance : Nat
  p_manufacturer_data : Option (List Nat)
  manufacturer_len : Nat
  p_service_data : Option (List Nat)
  service_data_len : Nat
  flag : Nat
deriving DecidableEq

/-- The record `network_bluetooth_obj_t`. -/
structure network_bluetooth_obj_t where
  state : bt_state
  params : esp_ble_adv_params_t
  data : esp_ble_adv_data_t
deriving DecidableEq

/-- The static initializer of `network_bluetooth_singleton`.  The C
initializers `1280 * 1.6` are compile-time double expressions equal to
exactly 2048 (the product of 1280 with the binary64 value of 1.6 rounds
to the representable integer 2048). -/
def network_bluetooth_singleton : network_bluetooth_obj_t :=
  { state := bt_state.DEINIT
    params :=
      { adv_int_min := 2048
        adv_int_max := 2048
        adv_type := 0
        own_addr_type := 0
        peer_addr := [0, 0, 0, 0, 0, 0]
        peer_addr_type := 0
        channel_map := 7
        adv_filter_policy := 0 }
    data :=
      { set_scan_rsp := false
        include_name := false
        include_txpower := false
        min_interval := 2048
        max_interval := 2048
        appearance := 0
        p_manufacturer_data := none
        manufacturer_len := 0
        p_service_data := none
        service_data_len := 0
        flag := 0 } }

/-! Section: MicroPython object values crossing the binding boundary -/

/-- A MicroPython object as seen by this file: the none singleton, a
str/bytes object carrying its bytes, a bytearray carrying its bytes, or
some other object (e.g. an int), which none of the type tests below
accept. -/
inductive mp_obj where
  | none_obj
  | str_obj (bytes : List Nat)
  | bytes_obj (bytes : List Nat)
  | bytearray_obj (bytes : List Nat)
  | other_obj
deriving DecidableEq

/-- Modelled from the spec: the binding layer's type test
`mp_obj_get_type(o) != &mp_type_bytearray` used on the peer address
(`mp_obj_get_type` and the type objects live outside `src/`); true iff
the object is a bytearray. -/
def is_bytearray_typed : mp_obj → Bool
  | mp_obj.bytearray_obj _ => true
  | _ => false

/-- Modelled from the spec: the clear-sentinel test
`mp_obj_get_type(o) == mp_const_none` — per the specification the
explicit none/null value selects the "clear" behaviour, so this test
recognises exactly the none singleton. -/
def is_none_sentinel : mp_obj → Bool
  | mp_obj.none_obj => true
  | _ => false

/-- Modelled from the spec: `MP_OBJ_IS_STR_OR_BYTES` (defined outside
`src/`); true for str and bytes objects. -/
def is_str_or_bytes : mp_obj → Bool
  | mp_obj.str_obj _ => true
  | mp_obj.bytes_obj _ => true
  | _ => false

/-- Modelled from the spec: `mp_get_buffer` / `mp_obj_str_get_buffer`
(defined outside `src/`) — extract the byte buffer of a buffer-backed
object into the out-parameter; an absent (`MP_OBJ_NULL`) or
non-buffer object leaves the out-parameter's pointer null. -/
def get_buffer : Option mp_obj → Option (List Nat)
  | some (mp_obj.str_obj b) => some b
  | some (mp_obj.bytes_obj b) => some b
  | some (mp_obj.bytearray_obj b) => some b
  | _ => none

/-- The parsed keyword arguments of `ble_settings`, one field per entry
of `allowed_args` that the function body later consumes.  Integer
arguments use the C sentinel `-1` for "absent"; object arguments use
`none` for `MP_OBJ_NULL`. -/
structure ble_args where
  int_min : Int := -1
  int_max : Int := -1
  arg_type : Int := -1
  own_addr_type : Int := -1
  peer_addr : Option mp_obj := none
  peer_addr_type : Int := -1
  channel_map : Int := -1
  filter_policy : Int := -1
  adv_is_scan_rsp : Int := -1
  adv_dev_name : Option mp_obj := none
  adv_man_name : Option mp_obj := none

/-- Result of one `network_bluetooth_ble_settings` call: the singleton
as it stands when the call returns or raises, the sequence of byte
strings passed to `esp_ble_gap_set_device_name`, and the raised error
message, if any.  The state component is the post-call state even when
an error is raised, because `mp_raise_*` unwinds without undoing the
mutations already applied to the global singleton. -/
structure ble_result where
  self : network_bluetooth_obj_t
  dev_name_calls : List (List Nat)
  error : Option String
deriving DecidableEq

/-- The function `network_bluetooth_ble_settings`, translated statement by statement
from the source.  Three places in the source are not well-formed C and
are modelled from the spec, each marked below: the incomplete
assignment `self->data.set_scan_rsp = mp` (modelled as storing the
supplied flag), and the undeclared identifier `buffer` in the
manufacturer-data block (modelled as the local `adv_man_name_buf`, the
only buffer that block is about).  Note two faithful translations of
source slips: both `mp_obj_str_get_buffer` calls read
`args[ARG_peer_addr]`, and the manufacturer block stores
`manufacturer_len = 0` and sets `include_name`. -/
def network_bluetooth_ble_settings (args : ble_args)
    (self0 : network_bluetooth_obj_t) : ble_result := Id.run do
  let mut self := self0
  let mut dev_calls : List (List Nat) := []
  let mut peer_addr_buf : Option (List Nat) := none
  let mut adv_man_name_buf : Option (List Nat) := none
  let mut adv_dev_name_buf : Option (List Nat) := none
  -- pre-check complex types
  match args.peer_addr with
  | some o =>
    if ¬ is_bytearray_typed o then
      return ⟨self, dev_calls, some "peer_addr must be bytearray(6)"⟩
    peer_addr_buf := get_buffer (some o)
    if (peer_addr_buf.getD []).length ≠ 6 then
      return ⟨self, dev_calls, some "peer_addr must be bytearray(6)"⟩
  | none => pure ()
  match args.adv_man_name with
  | some o =>
    if is_none_sentinel o then
      self := { self with data := { self.data with
        manufacturer_len := 0, p_manufacturer_data := none } }
    else if ¬ is_str_or_bytes o then
      return ⟨self, dev_calls, some "adv_man_name must be type str or bytes"⟩
    -- source reads args[ARG_peer_addr] here, not args[ARG_adv_man_name]
    adv_man_name_buf := get_buffer args.peer_addr
  | none => pure ()
  match args.adv_dev_name with
  | some o =>
    if is_none_sentinel o then
      dev_calls := dev_calls ++ [[]]
      self := { self with data := { self.data with include_name := false } }
    else if ¬ is_str_or_bytes o then
      return ⟨self, dev_calls, some "adv_dev_name must be type str or bytes"⟩
    -- source reads args[ARG_peer_addr] here, not args[ARG_adv_dev_name]
    adv_dev_name_buf := get_buffer args.peer_addr
  | none => pure ()
  -- update esp_ble_adv_params_t
  if args.int_min ≠ -1 then
    self := { self with params := { self.params with
      adv_int_min := adv_int_store args.int_min.toNat } }
  if args.int_max ≠ -1 then
    self := { self with params := { self.params with
      adv_int_max := adv_int_store args.int_max.toNat } }
  if args.arg_type ≠ -1 then
    self := { self with params := { self.params with
      adv_type := args.arg_type.toNat } }
  if args.own_addr_type ≠ -1 then
    self := { self with params := { self.params with
      own_addr_type := args.own_addr_type.toNat } }
  match peer_addr_buf with
  | some b =>
    self := { self with params := { self.params with peer_addr := b } }
  | none => pure ()
  if args.peer_addr_type ≠ -1 then
    self := { self with params := { self.params with
      peer_addr_type := args.peer_addr_type.toNat } }
  if args.channel_map ≠ -1 then
    self := { self with params := { self.params with
      channel_map := args.channel_map.toNat } }
  if args.filter_policy ≠ -1 then
    self := { self with params := { self.params with
      adv_filter_policy := args.filter_policy.toNat } }
  -- update esp_ble_adv_data_t
  if args.adv_is_scan_rsp ≠ -1 then
    -- source is the incomplete `self->data.set_scan_rsp = mp`;
    -- modelled from the spec: store the supplied flag
    self := { self with data := { self.data with
      set_scan_rsp := args.adv_is_scan_rsp ≠ 0 } }
  match adv_dev_name_buf with
  | some b =>
    dev_calls := dev_calls ++ [b]
    self := { self with data := { self.data with
      include_name := decide (0 < b.length) } }
  | none => pure ()
  match adv_man_name_buf with
  | some b =>
    self := { self with data := { self.data with
      manufacturer_len := 0, p_manufacturer_data := none } }
    -- source tests `buffer.len > 0` with `buffer` undeclared;
    -- modelled as adv_man_name_buf
    if 0 < b.length then
      self := { self with data := { self.data with
        p_manufacturer_data := some b,
        include_name := decide (0 < b.length),
        manufacturer_len := 0 } }
  | none => pure ()
  return ⟨self, dev_calls, none⟩

/-! Section: the lifecycle controller -/

/-- Observable outcome of one `network_bluetooth_init` call. -/
structure life_result where
  state : bt_state
  enable_calls : Nat
  frames : List (List Nat)
  error : Option String
deriving DecidableEq

/-- The function `network_bluetooth_init`: when the state is `DEINIT`, call
`esp_bt_controller_init`/`esp_bt_controller_enable` (the external
collaborator's verdict is `enable_ok`), raise `OSError` if enabling
failed, otherwise send the HCI reset frame and move to `INIT`; when
already `INIT`, only log. -/
def network_bluetooth_init (enable_ok : Bool) (s : bt_state) : life_result :=
  match s with
  | bt_state.DEINIT =>
    if enable_ok then
      ⟨bt_state.INIT, 1, [CREATE_HCI_HOST_COMMAND HCI_CMD_RESET], none⟩
    else
      ⟨bt_state.DEINIT, 1, [], some "BT initialization failed"⟩
  | bt_state.INIT => ⟨bt_state.INIT, 0, [], none⟩

/-- The function `network_bluetooth_make_new`: reject any argument, then run
`network_bluetooth_init` on the singleton. -/
def network_bluetooth_make_new (n_args n_kw : Nat) (enable_ok : Bool)
    (s : bt_state) : life_result :=
  if n_args ≠ 0 ∨ n_kw ≠ 0 then
    ⟨s, 0, [], some "Constructor takes no arguments"⟩
  else
    network_bluetooth_init enable_ok s

/-- The function `network_bluetooth_deinit`: the source body is only a `// FIXME`
comment and `return mp_const_none` — it touches nothing. -/
def network_bluetooth_deinit (self : network_bluetooth_obj_t) :
    network_bluetooth_obj_t := self

/-! Section: the claims -/

/-- C1: for every supported command identifier, the built HCI frame is
the byte sequence 0x01, opcode low byte, opcode high byte, parameter
length, followed by a zero-filled parameter region, of total length
1 + 3 + param_len, with the opcode (ogf <<< 10) ||| ocf stored
little-endian; in particular the Reset frame is exactly
[0x01, 0x03, 0x0C, 0x00]. -/
theorem c1_hci_frame_layout :
    (∀ cmd : Fin 4,
      CREATE_HCI_HOST_COMMAND cmd.val =
        0x01 :: (MAKE_OPCODE (hci_ogf cmd.val) (hci_ocf cmd.val) % 256) ::
          (MAKE_OPCODE (hci_ogf cmd.val) (hci_ocf cmd.val) / 256) ::
          hci_plen cmd.val :: List.replicate (hci_plen cmd.val) 0 ∧
      (CREATE_HCI_HOST_COMMAND cmd.val).length = 1 + 3 + hci_plen cmd.val) ∧
    CREATE_HCI_HOST_COMMAND HCI_CMD_RESET = [0x01, 0x03, 0x0C, 0x00] := by
  decide

/-- Configuration call of the C2 failing input: a 3-byte manufacturer
payload together with a valid 6-byte peer address. -/
def c2_args : ble_args :=
  { peer_addr := some (mp_obj.bytearray_obj [1, 2, 3, 4, 5, 6])
    adv_man_name := some (mp_obj.bytes_obj [10, 11, 12]) }

/-- C2 (code bug): supplying the 3-byte manufacturer payload b"\x0a\x0b\x0c"
ends with the manufacturer buffer holding the peer-address bytes (the
source reads the buffer from args[ARG_peer_addr]) and with
manufacturer_len = 0 (the source stores 0 instead of the length), not
the payload bytes with recorded length 3 as the claim states. -/
theorem c2_manufacturer_update_wrong :
    (network_bluetooth_ble_settings c2_args network_bluetooth_singleton).error = none ∧
    (network_bluetooth_ble_settings c2_args
      network_bluetooth_singleton).self.data.p_manufacturer_data = some [1, 2, 3, 4, 5, 6] ∧
    (network_bluetooth_ble_settings c2_args
      network_bluetooth_singleton).self.data.manufacturer_len = 0 ∧
    ¬ ((network_bluetooth_ble_settings c2_args
      network_bluetooth_singleton).self.data.p_manufacturer_data = some [10, 11, 12] ∧
       (network_bluetooth_ble_settings c2_args
      network_bluetooth_singleton).self.data.manufacturer_len = 3) := by
  decide

/-- Store state for the C3 failing input: an owned one-byte
manufacturer buffer is present before the call. -/
def c3_self : network_bluetooth_obj_t :=
  { network_bluetooth_singleton with
    data := { network_bluetooth_singleton.data with
      p_manufacturer_data := some [170], manufacturer_len := 1 } }

/-- Configuration call of the C3 failing input: the manufacturer clear
sentinel combined with an invalid (integer) device-name value. -/
def c3_args : ble_args :=
  { adv_man_name := some mp_obj.none_obj
    adv_dev_name := some mp_obj.other_obj }

/-- C3 (code bug): a call combining the manufacturer clear sentinel
with a wrong-typed device name raises the device-name type error, yet
the owned manufacturer buffer has already been released and its length
zeroed — the store is mutated before the validation failure is
reported, contradicting the all-or-nothing claim. -/
theorem c3_mutation_before_error :
    (network_bluetooth_ble_settings c3_args c3_self).error =
      some ("adv_dev_name must be type str or bytes") ∧
    (network_bluetooth_ble_settings c3_args c3_self).self.data.p_manufacturer_data = none ∧
    (network_bluetooth_ble_settings c3_args c3_self).self.data.manufacturer_len = 0 ∧
    c3_self.data.p_manufacturer_data = some [170] := by
  decide

/-- Configuration call of the C4 failing input: only a device name
(the bytes of "foo") is supplied. -/
def c4_args : ble_args :=
  { adv_dev_name := some (mp_obj.str_obj [102, 111, 111]) }

/-- C4 (code bug): supplying the non-empty device name "foo" forwards
nothing to the set-device-name collaborator and leaves include-name
false — the source reads the buffer from args[ARG_peer_addr] (absent
here), so the device-name update block never runs. -/
theorem c4_device_name_not_forwarded :
    (network_bluetooth_ble_settings c4_args network_bluetooth_singleton).error = none ∧
    (network_bluetooth_ble_settings c4_args network_bluetooth_singleton).dev_name_calls = [] ∧
    (network_bluetooth_ble_settings c4_args
      network_bluetooth_singleton).self.data.include_name = false := by
  decide

/-- C5 (counterexample): for input 1 ms the stored value is 1
controller unit, but round(1 * 1.6) = 2 — the code truncates the
floating-point product instead of rounding it. -/
theorem c5_store_is_not_round :
    adv_int_store 1 = 1 ∧ spec_round_units 1 = 2 := by
  constructor
  · decide
  · simp only [spec_round_units, Nat.cast_one]
    rw [round_eq]
    norm_num

set_option maxHeartbeats 12000000 in
/-- C5 (amended): for every millisecond interval input in the valid
advertising-interval range (m ≤ 10240 ms), the stored value equals the
binary64 product m * 1.6 truncated toward zero, which is the floor
8 * m / 5 — not round(m * 1.6). -/
theorem c5_stored_units_eq_floor (m : Nat) (h : m ≤ 10240) :
    adv_int_store m = 8 * m / 5 := by
  have hc : check_range 20 0 10241 = true := by decide
  have h2 := check_range_sound 20 0 10241 hc m (by omega)
  simpa using h2

/-- C5 (witness): the amended statement at the default interval input
1280 ms, stored as 2048 units. -/
theorem c5_stored_units_eq_floor_witness :
    1280 ≤ 10240 ∧ adv_int_store 1280 = 8 * 1280 / 5 :=
  ⟨by decide, c5_stored_units_eq_floor 1280 (by decide)⟩

/-- C6 (counterexample): with a transport that is never ready, the
readiness predicate is polled 4 times (not at most 3), with a sleep of
exactly 1 tick between consecutive polls. -/
theorem c6_four_polls_not_three :
    (network_bluetooth_send_data (fun _ => false) 1 [1, 3, 12, 0]).polls = 4 ∧
    ¬ ((network_bluetooth_send_data (fun _ => false) 1 [1, 3, 12, 0]).polls ≤ 3) ∧
    (network_bluetooth_send_data (fun _ => false) 1 [1, 3, 12, 0]).sleep_ticks =
      [1, 1, 1] := by
  decide

/-- C6 (amended): for every readiness oracle, tick period and frame,
the transport-readiness predicate is polled at most 4 times in total
(an initial check plus 3 retries), every sleep between consecutive
polls requests exactly 1 tick (the C expression
(10 / portTICK_PERIOD_MS) || 1 always evaluates to 1), and the frame is
handed to the packet-send primitive exactly once. -/
theorem c6_send_retry_budget (avail : Nat → Bool) (port_tick_ms : Nat)
    (buf : List Nat) :
    (network_bluetooth_send_data avail port_tick_ms buf).polls ≤ 4 ∧
    (network_bluetooth_send_data avail port_tick_ms buf).sleep_ticks =
      List.replicate ((network_bluetooth_send_data avail port_tick_ms buf).polls - 1) 1 ∧
    (network_bluetooth_send_data avail port_tick_ms buf).packets = [buf] := by
  refine ⟨pollLoop_fst_le avail 3 0, ?_, rfl⟩
  show List.replicate (pollLoop avail 3 0).2 (c_or (10 / port_tick_ms) 1) =
    List.replicate ((pollLoop avail 3 0).1 - 1) 1
  rw [pollLoop_snd_eq]
  have hone : c_or (10 / port_tick_ms) 1 = 1 := by simp [c_or]
  rw [hone]

/-- Configuration call of the C7 failing input: a 2-byte manufacturer
payload together with a valid 6-byte peer address. -/
def c7_args : ble_args :=
  { peer_addr := some (mp_obj.bytearray_obj [9, 8, 7, 6, 5, 4])
    adv_man_name := some (mp_obj.str_obj [7, 7]) }

/-- C7 (code bug): after a successful configuration call that installs
a manufacturer payload, the payload pointer is non-null while
manufacturer_len is 0 — the claimed invariant that a non-null pointer
and a zero length never coexist is violated by the update path itself. -/
theorem c7_invariant_violated :
    (network_bluetooth_ble_settings c7_args network_bluetooth_singleton).error = none ∧
    ¬ ((network_bluetooth_ble_settings c7_args
      network_bluetooth_singleton).self.data.p_manufacturer_data = none) ∧
    (network_bluetooth_ble_settings c7_args
      network_bluetooth_singleton).self.data.manufacturer_len = 0 := by
  decide

/-- C8: init from Uninitialized with a successful controller enable
performs one enable call, sends exactly the Reset frame, reports
success and moves to Initialized; a second init performs no enable
call, sends no frame, reports success and stays Initialized. -/
theorem c8_first_and_second_call :
    network_bluetooth_init true bt_state.DEINIT =
      ⟨bt_state.INIT, 1, [[0x01, 0x03, 0x0C, 0x00]], none⟩ ∧
    network_bluetooth_init true bt_state.INIT =
      ⟨bt_state.INIT, 0, [], none⟩ := by
  decide

/-- Store state for the C9 failing input: Initialized, with an owned
two-byte manufacturer buffer. -/
def c9_self : network_bluetooth_obj_t :=
  { network_bluetooth_singleton with
    state := bt_state.INIT
    data := { network_bluetooth_singleton.data with
      p_manufacturer_data := some [5, 6], manufacturer_len := 2 } }

/-- C9 (code bug): deinit called in state Initialized with an owned
manufacturer buffer changes nothing — the state stays Initialized and
the buffer stays owned, because the source's deinit body is an
unimplemented FIXME stub; the claim's release-and-transition behaviour
does not happen. -/
theorem c9_deinit_is_stub :
    network_bluetooth_deinit c9_self = c9_self ∧
    (network_bluetooth_deinit c9_self).state = bt_state.INIT ∧
    (network_bluetooth_deinit c9_self).data.p_manufacturer_data = some [5, 6] := by
  decide

/-- C10: constructing the singleton with zero arguments runs init as a
side effect — from Uninitialized with a successful enable it performs
the enable call, sends the Reset frame and hands back the object in
state Initialized; when enabling fails the constructor raises and the
state stays Uninitialized. -/
theorem c10_constructor_runs_setup :
    network_bluetooth_make_new 0 0 true bt_state.DEINIT =
      ⟨bt_state.INIT, 1, [[0x01, 0x03, 0x0C, 0x00]], none⟩ ∧
    network_bluetooth_make_new 0 0 false bt_state.DEINIT =
      ⟨bt_state.DEINIT, 1, [], some ("BT initialization failed")⟩ := by
  decide
